import Mathlib

/-!
Verification of the `setupRoot` privileged setup orchestrator
(src/udiRoot/src/setupRoot.c) against its natural-language specification.

The C program is embedded shallowly:
* C strings become `List Char` (the bytes before the NUL terminator);
* `_filterString` (setupRoot.c:309-330) becomes `filterString`;
* the `getopt`-based argument parser `parse_SetupRootConfig`
  (setupRoot.c:168-243) becomes `parse_SetupRootConfig` over the argument
  vector `argv[1..]`, with GNU `getopt` argument permutation modelled by
  accumulating non-option arguments;
* `strtok`/`strtoul` are modelled by `volTokens`/`strtoul10`;
* `main` (setupRoot.c:99-162) becomes `runMain`, parameterised by an
  `Oracles` record giving the outcomes of the external collaborators
  (`parse_UdiRootConfig`, `parse_ImageData`, `mountImageLoop`,
  `mountImageVFS`, `setupImageSsh`, `startSshd`, `setupUserMounts`);
  `runMain` returns the exit status, the ordered trace of invoked stages
  and the diagnostics printed to stderr;
* the byte bookkeeping of the volume-map `realloc` calls
  (setupRoot.c:187-210) is modelled by `volAppendStep`.
-/

namespace SetupRoot

/-- A C string: the list of its bytes (as `Char`) before the NUL terminator. -/
abbrev CStr := List Char

/-- Convenience conversion from a Lean string literal to a `CStr`. -/
def cs (s : String) : CStr := s.toList

/-- C-locale `isalnum` on a byte: ASCII digits and letters
(`ctype.h` classification used at setupRoot.c:323). -/
def isalnumC (c : Char) : Bool :=
  (48 ≤ c.toNat && c.toNat ≤ 57) || (65 ≤ c.toNat && c.toNat ≤ 90) ||
    (97 ≤ c.toNat && c.toNat ≤ 122)

/-- The character test of `_filterString` (setupRoot.c:323):
`isalnum(*rptr) || *rptr == '_' || *rptr == ':' || *rptr == '.' ||
 *rptr == '+' || *rptr == '-'`. -/
def isFilterAllowed (c : Char) : Bool :=
  isalnumC c || c = '_' || c = ':' || c = '.' || c = '+' || c = '-'

/-- The copy loop of `_filterString` (setupRoot.c:322-327): `len` is
`strlen(input) + 1`, `w` the number of bytes already written (`wptr - ret`);
the loop runs while `wptr - ret < len` and the read pointer has not reached
the NUL terminator, copying exactly the allowed characters. -/
def filterLoop (len : Nat) (w : Nat) : CStr → CStr
  | [] => []
  | c :: rest =>
    if w < len then
      if isFilterAllowed c then c :: filterLoop len (w + 1) rest
      else filterLoop len w rest
    else []

/-- Function `_filterString` (setupRoot.c:309-330) on a non-NULL input (allocation is
assumed to succeed). -/
def filterString (s : CStr) : CStr := filterLoop (s.length + 1) 0 s

/-- `_filterString` including its NULL-input contract (setupRoot.c:314):
a NULL pointer is modelled as `none`. -/
def filterStringOpt : Option CStr → Option CStr
  | none => none
  | some s => some (filterString s)

/-- Successive `strtok(·, ":")` tokens of a string (setupRoot.c:177-179):
the maximal non-empty runs of non-`':'` characters, in order.  `acc` holds
the reversed characters of the token currently being scanned. -/
def strtokGo : CStr → CStr → List CStr
  | [], acc => if acc = [] then [] else [acc.reverse]
  | c :: rest, acc =>
    if c = ':' then
      if acc = [] then strtokGo rest []
      else acc.reverse :: strtokGo rest []
    else strtokGo rest (c :: acc)

/-- All `strtok` tokens of a `-v` option argument (setupRoot.c:177-179);
`from`, `to` and `flags` are the first three, when present. -/
def volTokens (s : CStr) : List CStr := strtokGo s []

/-- C-locale `isspace` on a byte, as skipped by `strtoul`. -/
def isspaceC (c : Char) : Bool :=
  c.toNat = 32 || c.toNat = 9 || c.toNat = 10 || c.toNat = 11 ||
    c.toNat = 12 || c.toNat = 13

/-- Model of `strtoul(s, NULL, 10)` (setupRoot.c:221): skip whitespace, accept one
optional sign, read decimal digits (none at all yields 0), clamp to
`ULONG_MAX` on overflow, and negate modulo `2^64` after a minus sign. -/
def strtoul10 (s : CStr) : Nat :=
  let s1 := s.dropWhile isspaceC
  let neg : Bool := s1.head? = some '-'
  let s2 := if s1.head? = some '-' || s1.head? = some '+' then s1.tail else s1
  let ds := s2.takeWhile (fun c => 48 ≤ c.toNat && c.toNat ≤ 57)
  let v := ds.foldl (fun acc c => acc * 10 + (c.toNat - 48)) 0
  if v ≥ 2 ^ 64 then 2 ^ 64 - 1
  else if neg then (2 ^ 64 - v) % 2 ^ 64
  else v

/-- One user-requested bind mount: the `from:to[:flags]` triple stored in the
parallel `volumeMapFrom` / `volumeMapTo` / `volumeMapFlags` arrays
(setupRoot.c:81-83). -/
structure VolumeEntry where
  vfrom : CStr
  vto : CStr
  vflags : Option CStr
deriving DecidableEq, Repr

/-- The parsed configuration `SetupRootConfig` (setupRoot.c:74-90).  `NULL`
string fields are `none`; `uid` holds the value of the 32-bit unsigned
`uid_t` field; the three parallel volume-map arrays are abstracted as one
list of `VolumeEntry` in insertion order. -/
structure SetupRootConfig where
  sshPubKey : Option CStr := none
  user : Option CStr := none
  imageType : Option CStr := none
  imageIdentifier : Option CStr := none
  uid : Nat := 0
  minNodeSpec : Option CStr := none
  volumeMap : List VolumeEntry := []
  verbose : Bool := false
deriving DecidableEq, Repr

/-- The stderr diagnostics the program can print before exiting
(setupRoot.c:113,117,126,134,139,147,151,157,183,192,227,237). -/
inductive Msg where
  | invalidVolumeFormat
  | allocFailed
  | missingArgument
  | wrongPositionalCount
  | configFailed
  | imageFailed
  | loopFailed
  | vfsFailed
  | sshSetupFailed
  | sshdFailed
  | userMountsFailed
deriving DecidableEq, Repr

/-- Does this option character take an argument?  From the `getopt` option
string `"v:s:u:U:N:V"` (setupRoot.c:172). -/
def optNeedsArg (c : Char) : Bool :=
  c = 'v' || c = 's' || c = 'u' || c = 'U' || c = 'N'

/-- The option character set of `"v:s:u:U:N:V"` (setupRoot.c:172). -/
def isKnownOpt (c : Char) : Bool := optNeedsArg c || c = 'V'

/-- The `switch (opt)` body of `parse_SetupRootConfig` for one option that
takes an argument (setupRoot.c:175-225): `-v` splits its argument with
`strtok` and appends a volume-map entry, rejecting a missing `from` or `to`
(setupRoot.c:182-185); `-s`, `-u`, `-N` duplicate the argument; `-U` stores
`strtoul(optarg, NULL, 10)` truncated to `uid_t`. -/
def applyOpt (c : Char) (arg : CStr) (cfg : SetupRootConfig) :
    Except Msg SetupRootConfig :=
  if c = 'v' then
    match volTokens arg with
    | f :: t :: rest =>
        .ok { cfg with volumeMap := cfg.volumeMap ++ [⟨f, t, rest.head?⟩] }
    | _ => .error .invalidVolumeFormat
  else if c = 's' then .ok { cfg with sshPubKey := some arg }
  else if c = 'u' then .ok { cfg with user := some arg }
  else if c = 'U' then .ok { cfg with uid := strtoul10 arg % 2 ^ 32 }
  else .ok { cfg with minNodeSpec := some arg }

/-- Processing by `getopt` of one option cluster (an `argv` element starting
with `-`), character by character.  `cluster` is the part after the dash,
`rest` the following `argv` elements.  Returns the updated configuration and
whether the next `argv` element was consumed as an option argument.  An
option needing an argument takes the remainder of its cluster if non-empty,
otherwise the next element; if neither exists `getopt` yields `?`, which the
parser's `case '?'` (setupRoot.c:226-229) turns into a fatal error, as it
does for an unknown option character. -/
def handleCluster : CStr → List CStr → SetupRootConfig →
    Except Msg (SetupRootConfig × Bool)
  | [], _, cfg => .ok (cfg, false)
  | c :: cr, rest, cfg =>
    if c = 'V' then handleCluster cr rest { cfg with verbose := true }
    else if optNeedsArg c then
      match cr, rest with
      | [], [] => .error .missingArgument
      | [], a :: _ => (applyOpt c a cfg).map (fun g => (g, true))
      | _ :: _, _ => (applyOpt c cr cfg).map (fun g => (g, false))
    else .error .missingArgument

/-- Is this `argv` element an option cluster for `getopt`: a dash followed
by at least one character?  (`-` alone and the empty string are non-option
arguments.) -/
def isOptElem (a : CStr) : Bool :=
  match a with
  | '-' :: _ :: _ => true
  | _ => false

/-- The `while` option loop of `getopt` (setupRoot.c:172-233) with
GNU `getopt` argument permutation: option elements are processed in order,
non-option elements are collected (in order) into `pos`, and a `--` element
stops option scanning.  Returns the configuration after all options and the
list of positional arguments (`argv[optind..]` after permutation). -/
def parseLoop : List CStr → SetupRootConfig → List CStr →
    Except Msg (SetupRootConfig × List CStr)
  | [], cfg, pos => .ok (cfg, pos)
  | a :: rest, cfg, pos =>
    if a = ['-', '-'] then .ok (cfg, pos ++ rest)
    else if isOptElem a then
      match handleCluster a.tail rest cfg with
      | .error m => .error m
      | .ok (cfg', true) =>
        match rest with
        | [] => .ok (cfg', pos)
        | _ :: rest' => parseLoop rest' cfg' pos
      | .ok (cfg', false) => parseLoop rest cfg' pos
    else parseLoop rest cfg (pos ++ [a])

/-- Parser `parse_SetupRootConfig` (setupRoot.c:168-243) on `argv[1..]`: run the
option loop, then require exactly two positional arguments
(setupRoot.c:235-239) and store them through `_filterString`
(setupRoot.c:240-241).  Error paths print their diagnostic and call
`_usage(1)`, which exits; this is modelled by the `Except` error. -/
def parse_SetupRootConfig (args : List CStr) : Except Msg SetupRootConfig :=
  match parseLoop args {} [] with
  | .error m => .error m
  | .ok (cfg, pos) =>
    match pos with
    | [p0, p1] =>
      .ok { cfg with imageType := some (filterString p0),
                     imageIdentifier := some (filterString p1) }
    | _ => .error .wrongPositionalCount

/-- The pipeline stages of `main` (setupRoot.c:112-159), in the order the
code can invoke them. -/
inductive Stage where
  | parseCfg
  | loadCfg
  | resolveImg
  | loopAttach
  | mountVFS
  | sshProvision
  | sshdStart
  | userMounts
deriving DecidableEq, Repr

/-- The fields of `ImageData` the orchestrator reads: only `useLoopMount`
(setupRoot.c:132). -/
structure ImageData where
  useLoopMount : Bool
deriving DecidableEq, Repr

/-- Outcomes of the external collaborators called by `main`.  `true` / `some`
means the call returns 0 / succeeds.  `getImage` wraps
`getImage`→`parse_ImageData` (setupRoot.c:125,304-307); on success it yields
the resolved `ImageData`. -/
structure Oracles where
  parseUdiRootConfig : Bool
  getImage : Option ImageData
  mountImageLoop : Bool
  mountImageVFS : Bool
  setupImageSsh : Bool
  startSshd : Bool
  setupUserMounts : Bool
deriving DecidableEq, Repr

/-- Observable outcome of one `main` run: the process exit status, the
ordered trace of pipeline stages that were invoked, and the stderr
diagnostics printed. -/
structure MainResult where
  exit : Nat
  trace : List Stage
  errs : List Msg
deriving DecidableEq, Repr

/-- The SSH gating condition of `main` (setupRoot.c:143-145):
`config.sshPubKey != NULL && strlen(config.sshPubKey) > 0 &&
 config.user != NULL && strlen(config.user) > 0 && config.uid != 0`. -/
def sshCond (cfg : SetupRootConfig) : Bool :=
  match cfg.sshPubKey, cfg.user with
  | some k, some u => !k.isEmpty && !u.isEmpty && cfg.uid ≠ 0
  | _, _ => false

/-- Final stage of `main` (setupRoot.c:156-159): `setupUserMounts`; on
failure print the diagnostic and exit 1, otherwise `return 0`. -/
def runUserMounts (o : Oracles) (tr : List Stage) : MainResult :=
  let tr := tr ++ [Stage.userMounts]
  if o.setupUserMounts then ⟨0, tr, []⟩ else ⟨1, tr, [Msg.userMountsFailed]⟩

/-- SSH stage of `main` (setupRoot.c:143-154): when `sshCond` holds, run
`setupImageSsh` then `startSshd`, exiting 1 on the first failure; otherwise
fall through to the user mounts. -/
def runSsh (cfg : SetupRootConfig) (o : Oracles) (tr : List Stage) :
    MainResult :=
  if sshCond cfg then
    let tr := tr ++ [Stage.sshProvision]
    if o.setupImageSsh then
      let tr' := tr ++ [Stage.sshdStart]
      if o.startSshd then runUserMounts o tr'
      else ⟨1, tr', [Msg.sshdFailed]⟩
    else ⟨1, tr, [Msg.sshSetupFailed]⟩
  else runUserMounts o tr

/-- VFS mount stage of `main` (setupRoot.c:138-141): `mountImageVFS`; on
failure exit 1, otherwise continue with the SSH stage. -/
def runVFS (cfg : SetupRootConfig) (o : Oracles) (tr : List Stage) :
    MainResult :=
  let tr := tr ++ [Stage.mountVFS]
  if o.mountImageVFS then runSsh cfg o tr else ⟨1, tr, [Msg.vfsFailed]⟩

/-- Loop-attach stage of `main` (setupRoot.c:132-137): entered only when
`image.useLoopMount` is set; `mountImageLoop` failure exits 1. -/
def runLoop (cfg : SetupRootConfig) (img : ImageData) (o : Oracles)
    (tr : List Stage) : MainResult :=
  if img.useLoopMount then
    let tr := tr ++ [Stage.loopAttach]
    if o.mountImageLoop then runVFS cfg o tr else ⟨1, tr, [Msg.loopFailed]⟩
  else runVFS cfg o tr

/-- Image resolution stage of `main` (setupRoot.c:125-128): `getImage`; on
failure exit 1, otherwise continue with the resolved `ImageData`. -/
def runResolve (cfg : SetupRootConfig) (o : Oracles) (tr : List Stage) :
    MainResult :=
  let tr := tr ++ [Stage.resolveImg]
  match o.getImage with
  | none => ⟨1, tr, [Msg.imageFailed]⟩
  | some img => runLoop cfg img o tr

/-- Function `main` (setupRoot.c:99-162) after the environment reset: parse the
command line (all parse failures print their diagnostic and exit 1 inside
`parse_SetupRootConfig` via `_usage`), load the site configuration, then run
the pipeline. -/
def runMain (args : List CStr) (o : Oracles) : MainResult :=
  match parse_SetupRootConfig args with
  | .error m => ⟨1, [Stage.parseCfg], [m]⟩
  | .ok cfg =>
    let tr := [Stage.parseCfg, Stage.loadCfg]
    if o.parseUdiRootConfig then runResolve cfg o tr
    else ⟨1, tr, [Msg.configFailed]⟩

/-- The lines printed by `_usage` (setupRoot.c:164-166): the function only
calls `exit(exitStatus)` and prints nothing at all. -/
def usageLines : List Msg := []

/-- A process environment: an ordered list of (name, value) bindings. -/
abbrev Env := List (CStr × CStr)

/-- The environment variable name `"PATH"` (setupRoot.c:110). -/
def pathVar : CStr := cs "PATH"

/-- The trusted PATH value installed at setupRoot.c:110. -/
def trustedPathValue : CStr := cs "/usr/bin:/usr/sbin:/bin:/sbin"

/-- Call `clearenv()` (setupRoot.c:109): discard every binding. -/
def clearenvM (_ : Env) : Env := []

/-- Call `setenv(name, value, 1)` (setupRoot.c:110): overwrite an existing
binding of `name`, or append a new one. -/
def setenvM (name value : CStr) (e : Env) : Env :=
  if e.any (fun p => p.1 = name) then
    e.map (fun p => if p.1 = name then (name, value) else p)
  else e ++ [(name, value)]

/-- The environment reset performed by `main` (setupRoot.c:109-110), before
any parsing or privileged action: `clearenv()` then
`setenv("PATH", "/usr/bin:/usr/sbin:/bin:/sbin", 1)`. -/
def envReset (e : Env) : Env := setenvM pathVar trustedPathValue (clearenvM e)

/-- A full `main` run including process-wide environment state: the
environment is reset first (setupRoot.c:109-110) and never touched again, so
the whole pipeline runs under `envReset e0`, and the parse result does not
depend on the inherited environment `e0`. -/
structure FullResult where
  env : Env
  result : MainResult
deriving DecidableEq

/-- Function `main` with the inherited environment made explicit. -/
def runMainFull (e0 : Env) (args : List CStr) (o : Oracles) : FullResult :=
  { env := envReset e0, result := runMain args o }

/-- Allocation bookkeeping of the volume-map arrays (setupRoot.c:85,180-210).
`capacity` is the `volumeMap_capacity` field (set to 0 by the `memset` at
setupRoot.c:106 and never assigned afterwards); `allocatedBytes` is the byte
size passed to the most recent successful `realloc` of each parallel array
(`none` models the initial NULL arrays); `cnt` is
`volumeMapFrom_ptr - volumeMapFrom`, the number of entries stored. -/
structure VolAlloc where
  capacity : Nat := 0
  allocatedBytes : Option Nat := none
  cnt : Nat := 0
deriving DecidableEq, Repr

/-- Value of `sizeof(char *)` on the LP64 platforms the program targets. -/
def ptrSize : Nat := 8

/-- One `-v` option's array maintenance (setupRoot.c:180-210): when the
arrays are NULL or `cnt + 2 >= capacity`, each array is
`realloc`-ed to `volumeMap_capacity + VOLUME_ALLOC_BLOCK` BYTES — the
element size `sizeof(char *)` is not part of the product, and `capacity`
itself is never increased.  The entry is then written at pointer index
`cnt` and the NULL terminator at pointer index `cnt + 1`.  The returned
flag is `true` exactly when those writes (needing `(cnt + 2) * ptrSize`
bytes) stay inside the allocated block. -/
def volAppendStep (st : VolAlloc) : VolAlloc × Bool :=
  let st :=
    if st.allocatedBytes = none || st.cnt + 2 ≥ st.capacity then
      { st with allocatedBytes := some (st.capacity + 10) }
    else st
  let ok :=
    match st.allocatedBytes with
    | some bytes => decide ((st.cnt + 2) * ptrSize ≤ bytes)
    | none => false
  ({ st with cnt := st.cnt + 1 }, ok)

/-- Running `n` consecutive `-v` options starting from the zeroed state of
setupRoot.c:106: the final bookkeeping state, and whether every pointer
write so far stayed in bounds. -/
def volAppendRun : Nat → VolAlloc × Bool
  | 0 => ({}, true)
  | n + 1 =>
    let (st, ok) := volAppendRun n
    let (st', ok') := volAppendStep st
    (st', ok && ok')

deriving instance DecidableEq for Except

/-- Subsequence test: `subseqB pat t` holds when the stages of `pat` occur
in `t` in the given order (as a subsequence).  Each stage is invoked at most
once per run, so `subseqB [a, b] t = true` says exactly that `a` was invoked
before `b`. -/
def subseqB : List Stage → List Stage → Bool
  | [], _ => true
  | _ :: _, [] => false
  | a :: as, b :: bs => (a = b && subseqB as bs) || subseqB (a :: as) bs

/-- The stage identified by each stderr diagnostic: every failure message of
the program names the stage that produced it (setupRoot.c:113,117,126,134,
139,147,151,157,183,192,227,237). -/
def stageOfMsg : Msg → Stage
  | .invalidVolumeFormat => .parseCfg
  | .allocFailed => .parseCfg
  | .missingArgument => .parseCfg
  | .wrongPositionalCount => .parseCfg
  | .configFailed => .loadCfg
  | .imageFailed => .resolveImg
  | .loopFailed => .loopAttach
  | .vfsFailed => .mountVFS
  | .sshSetupFailed => .sshProvision
  | .sshdFailed => .sshdStart
  | .userMountsFailed => .userMounts

/-- The last stage a run invoked (the last element of the trace). -/
def lastInvoked : List Stage → Option Stage
  | [] => none
  | [a] => some a
  | _ :: b :: rest => lastInvoked (b :: rest)

/-- All stages of one run succeed: the command line parses, the site
configuration loads, the image resolves, the loop attach succeeds when the
image needs one, the VFS mount succeeds, both SSH sub-steps succeed when the
SSH gating condition holds, and the user mounts apply. -/
def allStagesOk (args : List CStr) (o : Oracles) : Prop :=
  ∃ cfg, parse_SetupRootConfig args = .ok cfg ∧
    o.parseUdiRootConfig = true ∧
    (∃ img, o.getImage = some img ∧
      (img.useLoopMount = true → o.mountImageLoop = true)) ∧
    o.mountImageVFS = true ∧
    (sshCond cfg = true → o.setupImageSsh = true ∧ o.startSshd = true) ∧
    o.setupUserMounts = true

/-- A `-U` argument in which, after `strtoul`'s optional leading whitespace
and at most one sign character, no decimal digit follows. -/
def noUidDigits (s : CStr) : Bool :=
  let s1 := s.dropWhile isspaceC
  let s2 := if s1.head? = some '-' || s1.head? = some '+' then s1.tail else s1
  match s2.head? with
  | some c => !(48 ≤ c.toNat && c.toNat ≤ 57)
  | none => true

/-- Collaborator oracles in which every stage succeeds and the resolved
image requires a loop mount. -/
def oAll : Oracles := ⟨true, some ⟨true⟩, true, true, true, true, true⟩

/-- Collaborator oracles in which every stage succeeds and the resolved
image does not require a loop mount. -/
def oNoLoop : Oracles := ⟨true, some ⟨false⟩, true, true, true, true, true⟩

/-- Collaborator oracles in which `mountImageVFS` fails. -/
def oVfsFail : Oracles := ⟨true, some ⟨false⟩, true, false, true, true, true⟩

/-- Argument vector `t i`: just the two positional arguments. -/
def argsPlain : List CStr := [cs "t", cs "i"]

/-- Argument vector `-s k -u alice -U 1000 t i`. -/
def argsSsh : List CStr :=
  [cs "-s", cs "k", cs "-u", cs "alice", cs "-U", cs "1000", cs "t", cs "i"]

/-- The configuration parsed from `argsSsh`. -/
def cfgSsh : SetupRootConfig :=
  { sshPubKey := some (cs "k"), user := some (cs "alice"),
    imageType := some (cs "t"), imageIdentifier := some (cs "i"),
    uid := 1000 }

/-- The configuration parsed from `argsPlain`. -/
def cfgPlain : SetupRootConfig :=
  { imageType := some (cs "t"), imageIdentifier := some (cs "i") }

/-- Argument vector `-v a t i`: a volume map missing its `to` component. -/
def argsBadVol : List CStr := [cs "-v", cs "a", cs "t", cs "i"]

/-- Argument vector `-U -5 -s k -u alice t i`: a `-U` argument that does not
begin with a decimal digit. -/
def argsU : List CStr :=
  [cs "-U", cs "-5", cs "-s", cs "k", cs "-u", cs "alice", cs "t", cs "i"]

/-- The configuration parsed from `argsU`: `strtoul("-5", NULL, 10)` is
`ULONG_MAX - 4`, which truncates to `2^32 - 5` in the `uid_t` field. -/
def cfgU : SetupRootConfig :=
  { sshPubKey := some (cs "k"), user := some (cs "alice"),
    imageType := some (cs "t"), imageIdentifier := some (cs "i"),
    uid := 4294967291 }

end SetupRoot

namespace SetupRoot

theorem filterLoop_eq_filter (s : CStr) : ∀ len w : Nat, w + s.length < len →
    filterLoop len w s = s.filter isFilterAllowed := by
  induction s with
  | nil => intro len w h; simp [filterLoop]
  | cons c rest ih =>
    intro len w h
    simp only [List.length_cons] at h
    have h1 := ih len (w + 1) (by omega)
    have h2 := ih len w (by omega)
    cases hc : isFilterAllowed c <;>
      simp [filterLoop, List.filter_cons, hc, h1, h2, (by omega : w < len)]

theorem filterString_eq_filter (s : CStr) :
    filterString s = s.filter isFilterAllowed :=
  filterLoop_eq_filter s (s.length + 1) 0 (by omega)

/-- C4: for every non-null input, `_filterString` returns the subsequence of
characters in `[A-Za-z0-9_:.+-]`, preserving order and dropping the rest; an
all-rejected input yields the empty string; a NULL input yields NULL. -/
theorem C4_filterString_spec :
    (∀ s : CStr, filterString s = s.filter isFilterAllowed ∧
      (∀ c ∈ filterString s, isFilterAllowed c = true) ∧
      ((∀ c ∈ s, isFilterAllowed c = false) → filterString s = [])) ∧
    filterStringOpt none = none := by
  refine ⟨fun s => ⟨filterString_eq_filter s, ?_, ?_⟩, rfl⟩
  · intro c hc
    rw [filterString_eq_filter] at hc
    exact List.of_mem_filter hc
  · intro h
    rw [filterString_eq_filter]
    refine List.filter_eq_nil_iff.mpr ?_
    intro c hc
    simp [h c hc]

theorem C4_witness :
    filterString (cs " !/") = [] ∧ filterStringOpt none = none :=
  ⟨(C4_filterString_spec.1 (cs " !/")).2.2 (by decide), C4_filterString_spec.2⟩

/-- C9: on inputs made only of permitted characters the filter is the
identity, and the filter is idempotent on every input. -/
theorem C9_filter_identity (s : CStr) :
    ((∀ c ∈ s, isFilterAllowed c = true) → filterString s = s) ∧
    filterString (filterString s) = filterString s := by
  constructor
  · intro h
    rw [filterString_eq_filter]
    exact List.filter_eq_self.mpr h
  · rw [filterString_eq_filter (filterString s), filterString_eq_filter s]
    exact List.filter_eq_self.mpr (fun a ha => List.of_mem_filter ha)

theorem C9_witness :
    filterString (cs "abc:9.z") = cs "abc:9.z" ∧
    filterString (filterString (cs "abc:9.z")) = filterString (cs "abc:9.z") :=
  ⟨(C9_filter_identity (cs "abc:9.z")).1 (by decide),
    (C9_filter_identity (cs "abc:9.z")).2⟩

/-- C3: the environment reset of `main` (setupRoot.c:109-110) discards every
inherited variable and installs exactly the single trusted `PATH` binding,
before the parser or any pipeline stage runs (the pipeline result does not
depend on the inherited environment). -/
theorem C3_env_reset (e0 : Env) (args : List CStr) (o : Oracles) :
    (runMainFull e0 args o).env = [(pathVar, trustedPathValue)] ∧
    (runMainFull e0 args o).result = runMain args o := by
  constructor
  · simp [runMainFull, envReset, clearenvM, setenvM]
  · rfl

/-- C5 (code bug): already the first `-v` option overruns the volume-map
arrays: the `realloc` at setupRoot.c:188-190 is sized in bytes
(`capacity + VOLUME_ALLOC_BLOCK`, without the `sizeof(char *)` factor) and
`volumeMap_capacity` is never updated, so the 10 allocated bytes cannot hold
the entry pointer plus the NULL terminator (16 bytes), and the overflow
persists for every later `-v`. -/
theorem C5_volumeMap_realloc_overflow :
    (volAppendStep {}).2 = false ∧
    (volAppendRun 1).2 = false ∧ (volAppendRun 3).2 = false ∧
    (volAppendRun 3).1.allocatedBytes = some 10 := by decide

end SetupRoot

namespace SetupRoot

theorem applyOpt_v_error (s : CStr) (cfg : SetupRootConfig)
    (h : (volTokens s).length < 2) :
    applyOpt 'v' s cfg = .error .invalidVolumeFormat := by
  cases hv : volTokens s with
  | nil => simp [applyOpt, hv]
  | cons f rest =>
    cases rest with
    | nil => simp [applyOpt, hv]
    | cons t r =>
      rw [hv, List.length_cons, List.length_cons] at h
      omega

/-- C6: `-v a:b` yields the single entry `(a, b, none)`; `-v a:b:ro` yields
`(a, b, some "ro")`; every `-v` argument whose `strtok` split lacks a `from`
or `to` token is a fatal parse error. -/
theorem C6_volume_entries :
    (parse_SetupRootConfig [cs "-v", cs "a:b", cs "t", cs "i"] =
      .ok { imageType := some (cs "t"), imageIdentifier := some (cs "i"),
            volumeMap := [⟨cs "a", cs "b", none⟩] }) ∧
    (parse_SetupRootConfig [cs "-v", cs "a:b:ro", cs "t", cs "i"] =
      .ok { imageType := some (cs "t"), imageIdentifier := some (cs "i"),
            volumeMap := [⟨cs "a", cs "b", some (cs "ro")⟩] }) ∧
    (∀ (s : CStr) (rest : List CStr), (volTokens s).length < 2 →
      parse_SetupRootConfig (cs "-v" :: s :: rest) =
        .error .invalidVolumeFormat) := by
  refine ⟨by decide, by decide, ?_⟩
  intro s rest h
  have ha := applyOpt_v_error s {} h
  rw [(by decide : cs "-v" = ['-', 'v'])]
  simp [parse_SetupRootConfig, parseLoop, handleCluster, optNeedsArg, ha,
    Except.map, isOptElem, List.tail]

theorem C6_witness :
    parse_SetupRootConfig (cs "-v" :: cs "a" :: [cs "t", cs "i"]) =
      .error .invalidVolumeFormat :=
  C6_volume_entries.2.2 (cs "a") [cs "t", cs "i"] (by decide)

theorem runMain_parse_error (args : List CStr) (o : Oracles) (m : Msg)
    (h : parse_SetupRootConfig args = .error m) :
    runMain args o = ⟨1, [Stage.parseCfg], [m]⟩ := by
  simp [runMain, h]

/-- C7: whenever the option loop completes, a positional count other than
two is a fatal parse error (exit 1, no pipeline stage runs), and exactly two
positionals populate `imageType` / `imageIdentifier` through the filter. -/
theorem C7_positional_arguments (args : List CStr) (o : Oracles) :
    (∀ cfg pos, parseLoop args {} [] = .ok (cfg, pos) → pos.length ≠ 2 →
      parse_SetupRootConfig args = .error .wrongPositionalCount ∧
      runMain args o = ⟨1, [Stage.parseCfg], [Msg.wrongPositionalCount]⟩) ∧
    (∀ cfg p0 p1, parseLoop args {} [] = .ok (cfg, [p0, p1]) →
      parse_SetupRootConfig args =
        .ok { cfg with imageType := some (filterString p0),
                       imageIdentifier := some (filterString p1) }) := by
  constructor
  · intro cfg pos hpl hlen
    have hp : parse_SetupRootConfig args = .error .wrongPositionalCount := by
      rcases pos with _ | ⟨p0, _ | ⟨p1, _ | ⟨p2, t⟩⟩⟩
      · simp [parse_SetupRootConfig, hpl]
      · simp [parse_SetupRootConfig, hpl]
      · simp at hlen
      · simp [parse_SetupRootConfig, hpl]
    exact ⟨hp, runMain_parse_error args o _ hp⟩
  · intro cfg p0 p1 hpl
    simp [parse_SetupRootConfig, hpl]

theorem C7_witness :
    parse_SetupRootConfig [cs "t"] = .error .wrongPositionalCount ∧
    runMain [cs "t"] oAll = ⟨1, [Stage.parseCfg], [Msg.wrongPositionalCount]⟩ ∧
    parse_SetupRootConfig argsPlain =
      .ok { imageType := some (filterString (cs "t")),
            imageIdentifier := some (filterString (cs "i")) } := by
  have h1 := (C7_positional_arguments [cs "t"] oAll).1 {} [cs "t"]
    (by decide) (by decide)
  have h2 := (C7_positional_arguments argsPlain oAll).2 {} (cs "t") (cs "i")
    (by decide)
  exact ⟨h1.1, h1.2, h2⟩

/-- C8 (amended): every parse failure exits with status 1 after printing the
parse diagnostic, with no pipeline stage invoked and no configuration handed
on; the `_usage` helper prints nothing, so no usage text is emitted. -/
theorem C8_parse_failure_behavior (args : List CStr) (o : Oracles) (m : Msg)
    (h : parse_SetupRootConfig args = .error m) :
    runMain args o = ⟨1, [Stage.parseCfg], [m]⟩ ∧ usageLines = [] :=
  ⟨runMain_parse_error args o m h, rfl⟩

theorem C8_witness :
    runMain argsBadVol oNoLoop =
      ⟨1, [Stage.parseCfg], [Msg.invalidVolumeFormat]⟩ ∧ usageLines = [] :=
  C8_parse_failure_behavior argsBadVol oNoLoop .invalidVolumeFormat (by decide)

/-- C8 counterexample: on `-v a t i` the parse fails and the process prints
only the volume-map diagnostic; `_usage` prints nothing, so no usage message
is ever part of the output. -/
theorem C8_counterexample :
    parse_SetupRootConfig argsBadVol = .error .invalidVolumeFormat ∧
    (runMain argsBadVol oNoLoop).exit = 1 ∧
    ¬ ∃ m ∈ (runMain argsBadVol oNoLoop).errs, m ∈ usageLines := by
  refine ⟨by decide, by decide, by decide⟩

end SetupRoot

namespace SetupRoot

theorem takeWhile_digits_nil (l : CStr)
    (h : (match l.head? with
          | some c => !(48 ≤ c.toNat && c.toNat ≤ 57)
          | none => true) = true) :
    l.takeWhile (fun c => 48 ≤ c.toNat && c.toNat ≤ 57) = [] := by
  cases l with
  | nil => rfl
  | cons c t =>
    simp only [List.head?, Bool.not_eq_true'] at h
    simp [List.takeWhile_cons, h]

theorem strtoul10_of_noUidDigits (s : CStr) (h : noUidDigits s = true) :
    strtoul10 s = 0 := by
  unfold noUidDigits at h
  have ht := takeWhile_digits_nil _ h
  simp only [strtoul10, ht, List.foldl_nil]
  norm_num

theorem sshCond_of_uid_zero (cfg : SetupRootConfig) (h : cfg.uid = 0) :
    sshCond cfg = false := by
  unfold sshCond
  cases hk : cfg.sshPubKey <;> cases hu : cfg.user <;> simp [h]

theorem applyOpt_error (c : Char) (a : CStr) (cfg : SetupRootConfig)
    (m : Msg) (h : applyOpt c a cfg = .error m) :
    m = .invalidVolumeFormat := by
  simp only [applyOpt] at h
  split at h
  · split at h
    · exact absurd h (by simp)
    · exact (Except.error.inj h).symm
  · split at h
    · exact absurd h (by simp)
    · split at h
      · exact absurd h (by simp)
      · split at h
        · exact absurd h (by simp)
        · exact absurd h (by simp)

theorem exceptMap_error {α β : Type} (f : α → β) (x : Except Msg α)
    (m : Msg) (h : x.map f = .error m) : x = .error m := by
  cases x with
  | error e => simpa [Except.map] using h
  | ok a => simp [Except.map] at h

theorem handleCluster_error (cl : CStr) : ∀ (rest : List CStr)
    (cfg : SetupRootConfig) (m : Msg),
    handleCluster cl rest cfg = .error m →
    m = .invalidVolumeFormat ∨ m = .missingArgument := by
  induction cl with
  | nil => intro rest cfg m h; simp [handleCluster] at h
  | cons c cr ih =>
    intro rest cfg m h
    simp only [handleCluster] at h
    split at h
    · exact ih rest _ m h
    · split at h
      · split at h
        · exact Or.inr (Except.error.inj h).symm
        · exact Or.inl (applyOpt_error _ _ _ _ (exceptMap_error _ _ _ h))
        · exact Or.inl (applyOpt_error _ _ _ _ (exceptMap_error _ _ _ h))
      · exact Or.inr (Except.error.inj h).symm

theorem parseLoop_error : ∀ (n : Nat) (args : List CStr)
    (cfg : SetupRootConfig) (pos : List CStr) (m : Msg),
    args.length ≤ n → parseLoop args cfg pos = .error m →
    m = .invalidVolumeFormat ∨ m = .missingArgument := by
  intro n
  induction n with
  | zero =>
    intro args cfg pos m hlen h
    rcases args with _ | ⟨a, rest⟩
    · simp [parseLoop] at h
    · simp at hlen
  | succ n ih =>
    intro args cfg pos m hlen h
    rcases args with _ | ⟨a, rest⟩
    · simp [parseLoop] at h
    · simp only [List.length_cons] at hlen
      simp only [parseLoop] at h
      split at h
      · exact absurd h (by simp)
      · split at h
        · split at h
          · rename_i heq
            exact (Except.error.inj h) ▸ handleCluster_error _ _ _ _ heq
          · split at h
            · exact absurd h (by simp)
            · rename_i rest' _
              refine ih rest' _ _ _ ?_ h
              rename_i hrest
              simp [hrest] at hlen ⊢
              omega
          · exact ih rest _ _ _ (by omega) h
        · exact ih rest _ _ _ (by omega) h

theorem parse_error_stage (args : List CStr) (m : Msg)
    (h : parse_SetupRootConfig args = .error m) :
    stageOfMsg m = Stage.parseCfg := by
  unfold parse_SetupRootConfig at h
  cases hpl : parseLoop args {} [] with
  | error m' =>
    rw [hpl] at h
    rcases parseLoop_error args.length args {} [] m' le_rfl hpl with h1 | h1 <;>
      rw [← Except.error.inj h, h1] <;> rfl
  | ok p =>
    obtain ⟨cfg, pos⟩ := p
    rw [hpl] at h
    rcases pos with _ | ⟨p0, _ | ⟨p1, _ | ⟨p2, t⟩⟩⟩ <;>
      first
        | (rw [← Except.error.inj h]; rfl)
        | exact absurd h (by simp)

end SetupRoot

namespace SetupRoot

set_option maxHeartbeats 1000000 in
theorem runMain_spec (args : List CStr) (o : Oracles) :
    (Stage.loopAttach ∈ (runMain args o).trace ↔
      ∃ cfg img, parse_SetupRootConfig args = .ok cfg ∧
        o.parseUdiRootConfig = true ∧ o.getImage = some img ∧
        img.useLoopMount = true) ∧
    (Stage.mountVFS ∈ (runMain args o).trace →
      (∃ img, o.getImage = some img) ∧
      subseqB [Stage.resolveImg, Stage.mountVFS] (runMain args o).trace =
        true) ∧
    (Stage.userMounts ∈ (runMain args o).trace →
      o.mountImageVFS = true ∧
      subseqB [Stage.mountVFS, Stage.userMounts] (runMain args o).trace =
        true) ∧
    (∀ cfg, parse_SetupRootConfig args = .ok cfg →
      (Stage.sshProvision ∈ (runMain args o).trace ↔
        Stage.mountVFS ∈ (runMain args o).trace ∧
        o.mountImageVFS = true ∧ sshCond cfg = true)) ∧
    ((runMain args o).exit = 0 ∨ (runMain args o).exit = 1) ∧
    ((runMain args o).exit = 0 ↔ allStagesOk args o) ∧
    ((runMain args o).exit = 1 →
      ∃ m, (runMain args o).errs = [m] ∧
        lastInvoked (runMain args o).trace = some (stageOfMsg m)) ∧
    ((runMain args o).exit = 0 → (runMain args o).errs = []) ∧
    (Stage.mountVFS ∈ (runMain args o).trace → o.mountImageVFS = false →
      (runMain args o).exit = 1 ∧
      Stage.sshProvision ∉ (runMain args o).trace ∧
      Stage.userMounts ∉ (runMain args o).trace ∧
      (runMain args o).errs = [Msg.vfsFailed]) := by
  obtain ⟨pc, gi, ml, mv, si, sd, um⟩ := o
  cases hp : parse_SetupRootConfig args with
  | error m =>
    have hst := parse_error_stage args m hp
    simp [runMain, hp, allStagesOk, subseqB, lastInvoked, hst]
  | ok cfg =>
    cases gi with
    | none =>
      cases pc <;>
        simp [runMain, runResolve, hp, allStagesOk, subseqB, lastInvoked,
          stageOfMsg]
    | some img =>
      obtain ⟨ul⟩ := img
      cases pc with
      | false =>
        simp [runMain, hp, allStagesOk, subseqB, lastInvoked, stageOfMsg]
      | true =>
        cases ul with
        | false =>
          cases mv with
          | false =>
            simp [runMain, runResolve, runLoop, runVFS, runSsh,
              runUserMounts, hp, allStagesOk, subseqB, lastInvoked,
              stageOfMsg]
          | true =>
            by_cases hs : sshCond cfg = true
            · cases si with
              | false =>
                simp [runMain, runResolve, runLoop, runVFS, runSsh,
                  runUserMounts, hp, hs, allStagesOk, subseqB, lastInvoked,
                  stageOfMsg]
              | true =>
                cases sd with
                | false =>
                  simp [runMain, runResolve, runLoop, runVFS, runSsh,
                    runUserMounts, hp, hs, allStagesOk, subseqB, lastInvoked,
                    stageOfMsg]
                | true =>
                  cases um <;>
                    simp [runMain, runResolve, runLoop, runVFS, runSsh,
                      runUserMounts, hp, hs, allStagesOk, subseqB,
                      lastInvoked, stageOfMsg]
            · cases um <;>
                simp [runMain, runResolve, runLoop, runVFS, runSsh,
                  runUserMounts, hp, hs, allStagesOk, subseqB, lastInvoked,
                  stageOfMsg]
        | true =>
          cases ml with
          | false =>
            simp [runMain, runResolve, runLoop, runVFS, runSsh,
              runUserMounts, hp, allStagesOk, subseqB, lastInvoked,
              stageOfMsg]
          | true =>
            cases mv with
            | false =>
              simp [runMain, runResolve, runLoop, runVFS, runSsh,
                runUserMounts, hp, allStagesOk, subseqB, lastInvoked,
                stageOfMsg]
            | true =>
              by_cases hs : sshCond cfg = true
              · cases si with
                | false =>
                  simp [runMain, runResolve, runLoop, runVFS, runSsh,
                    runUserMounts, hp, hs, allStagesOk, subseqB, lastInvoked,
                    stageOfMsg]
                | true =>
                  cases sd with
                  | false =>
                    simp [runMain, runResolve, runLoop, runVFS, runSsh,
                      runUserMounts, hp, hs, allStagesOk, subseqB,
                      lastInvoked, stageOfMsg]
                  | true =>
                    cases um <;>
                      simp [runMain, runResolve, runLoop, runVFS, runSsh,
                        runUserMounts, hp, hs, allStagesOk, subseqB,
                        lastInvoked, stageOfMsg]
              · cases um <;>
                  simp [runMain, runResolve, runLoop, runVFS, runSsh,
                    runUserMounts, hp, hs, allStagesOk, subseqB, lastInvoked,
                    stageOfMsg]

end SetupRoot

namespace SetupRoot

/-- C1: pipeline ordering and gating — `LoopAttach` is entered iff the
resolved image has `useLoopMount`; `MountVFS` only after `ResolveImage`
succeeds; `ApplyUserMounts` only after `MountVFS` succeeds; `SshProvision`
runs iff the pipeline reaches past `MountVFS` and SSH key, user and non-zero
uid are all present. -/
theorem C1_pipeline_ordering (args : List CStr) (o : Oracles) :
    (Stage.loopAttach ∈ (runMain args o).trace ↔
      ∃ cfg img, parse_SetupRootConfig args = .ok cfg ∧
        o.parseUdiRootConfig = true ∧ o.getImage = some img ∧
        img.useLoopMount = true) ∧
    (Stage.mountVFS ∈ (runMain args o).trace →
      (∃ img, o.getImage = some img) ∧
      subseqB [Stage.resolveImg, Stage.mountVFS] (runMain args o).trace =
        true) ∧
    (Stage.userMounts ∈ (runMain args o).trace →
      o.mountImageVFS = true ∧
      subseqB [Stage.mountVFS, Stage.userMounts] (runMain args o).trace =
        true) ∧
    (∀ cfg, parse_SetupRootConfig args = .ok cfg →
      (Stage.sshProvision ∈ (runMain args o).trace ↔
        Stage.mountVFS ∈ (runMain args o).trace ∧
        o.mountImageVFS = true ∧ sshCond cfg = true)) :=
  ⟨(runMain_spec args o).1, (runMain_spec args o).2.1,
    (runMain_spec args o).2.2.1, (runMain_spec args o).2.2.2.1⟩

theorem C1_witness :
    Stage.loopAttach ∈ (runMain argsSsh oAll).trace ∧
    ((∃ img, oAll.getImage = some img) ∧
      subseqB [Stage.resolveImg, Stage.mountVFS]
        (runMain argsSsh oAll).trace = true) ∧
    (oAll.mountImageVFS = true ∧
      subseqB [Stage.mountVFS, Stage.userMounts]
        (runMain argsSsh oAll).trace = true) ∧
    Stage.sshProvision ∈ (runMain argsSsh oAll).trace := by
  have h := C1_pipeline_ordering argsSsh oAll
  refine ⟨?_, h.2.1 (by decide), h.2.2.1 (by decide), ?_⟩
  · exact h.1.mpr ⟨cfgSsh, ⟨true⟩, by decide, rfl, rfl, rfl⟩
  · exact (h.2.2.2 cfgSsh (by decide)).mpr ⟨by decide, rfl, by decide⟩

/-- C2: failure of any stage exits with status 1 after exactly one
stage-identifying diagnostic, no later stage is invoked (the failing stage
is the last in the trace), and in particular a `mountImageVFS` failure
prevents SshProvision and ApplyUserMounts; a fully successful run exits
with status 0. -/
theorem C2_failure_propagation (args : List CStr) (o : Oracles) :
    ((runMain args o).exit = 0 ∨ (runMain args o).exit = 1) ∧
    ((runMain args o).exit = 0 ↔ allStagesOk args o) ∧
    ((runMain args o).exit = 1 →
      ∃ m, (runMain args o).errs = [m] ∧
        lastInvoked (runMain args o).trace = some (stageOfMsg m)) ∧
    ((runMain args o).exit = 0 → (runMain args o).errs = []) ∧
    (Stage.mountVFS ∈ (runMain args o).trace → o.mountImageVFS = false →
      (runMain args o).exit = 1 ∧
      Stage.sshProvision ∉ (runMain args o).trace ∧
      Stage.userMounts ∉ (runMain args o).trace ∧
      (runMain args o).errs = [Msg.vfsFailed]) :=
  (runMain_spec args o).2.2.2.2

theorem C2_witness :
    (runMain argsPlain oVfsFail).exit = 1 ∧
    (∃ m, (runMain argsPlain oVfsFail).errs = [m] ∧
      lastInvoked (runMain argsPlain oVfsFail).trace = some (stageOfMsg m)) ∧
    Stage.sshProvision ∉ (runMain argsPlain oVfsFail).trace ∧
    Stage.userMounts ∉ (runMain argsPlain oVfsFail).trace ∧
    (runMain argsPlain oNoLoop).exit = 0 ∧
    (runMain argsPlain oNoLoop).errs = [] := by
  have h1 := C2_failure_propagation argsPlain oVfsFail
  have h2 := C2_failure_propagation argsPlain oNoLoop
  have h9 := h1.2.2.2.2 (by decide) rfl
  have h0 : (runMain argsPlain oNoLoop).exit = 0 :=
    h2.2.1.mpr ⟨cfgPlain, by decide, rfl, ⟨⟨false⟩, rfl, by decide⟩, rfl,
      by decide, rfl⟩
  exact ⟨h9.1, h1.2.2.1 h9.1, h9.2.1, h9.2.2.1, h0, h2.2.2.2.1 h0⟩

/-- C10 counterexample: the `-U` argument `-5` does not begin with a decimal
digit, yet the parser records uid `2^32 - 5` (not 0) without any error —
`strtoul` accepts a sign — and with `-s`/`-u` present the SshProvision stage
runs instead of being skipped. -/
theorem C10_counterexample :
    (cs "-5").head? = some '-' ∧ ('-').isDigit = false ∧
    parse_SetupRootConfig argsU = .ok cfgU ∧ cfgU.uid = 4294967291 ∧
    Stage.sshProvision ∈ (runMain argsU oNoLoop).trace := by
  exact ⟨rfl, rfl, by decide, rfl, by decide⟩

/-- C10 (amended): if the `-U` argument contains no decimal digit after
`strtoul`'s optional whitespace and single sign, the parser records uid 0
without reporting any error (the `-U` option never fails), and a zero uid
makes the pipeline silently skip `SshProvision` even when `-s` and `-u`
were supplied. -/
theorem C10_nonnumeric_uid (s : CStr) (rest : List CStr) (o : Oracles)
    (h : noUidDigits s = true) :
    strtoul10 s = 0 ∧
    (∀ (c0 : SetupRootConfig) (pos : List CStr),
      parseLoop (cs "-U" :: s :: rest) c0 pos =
        parseLoop rest { c0 with uid := 0 } pos) ∧
    (∀ (args : List CStr) (cfg : SetupRootConfig),
      parse_SetupRootConfig args = .ok cfg → cfg.uid = 0 →
      Stage.sshProvision ∉ (runMain args o).trace) := by
  have h0 := strtoul10_of_noUidDigits s h
  refine ⟨h0, ?_, ?_⟩
  · intro c0 pos
    rw [(by decide : cs "-U" = ['-', 'U'])]
    simp [parseLoop, handleCluster, optNeedsArg, applyOpt, Except.map,
      isOptElem, List.tail, h0]
  · intro args cfg hp hz hmem
    have h4 := ((runMain_spec args o).2.2.2.1 cfg hp).mp hmem
    rw [sshCond_of_uid_zero cfg hz] at h4
    exact absurd h4.2.2 (by simp)

theorem C10_witness :
    strtoul10 (cs "abc") = 0 ∧
    parseLoop (cs "-U" :: cs "abc" :: [cs "t", cs "i"]) {} [] =
      parseLoop [cs "t", cs "i"] { uid := 0 } [] ∧
    Stage.sshProvision ∉ (runMain argsPlain oNoLoop).trace := by
  have h := C10_nonnumeric_uid (cs "abc") [cs "t", cs "i"] oNoLoop (by decide)
  exact ⟨h.1, h.2.1 {} [], h.2.2 argsPlain cfgPlain (by decide) rfl⟩

end SetupRoot
